import Mathlib

/-!
Verification development for the realtime voice-agent bridge
(`bolt_realtime.py`).  The Python source is shallowly embedded: pure
helpers become Lean functions, loops become structural or well-founded
recursion, wall-clock instants and media timestamps become natural
numbers of milliseconds, and calls to external collaborators (Google
Calendar, Twilio SMS, e-mail senders, the database) are parameters that
range over the collaborator's possible outcomes.  Python `datetime`
values in the fixed civil timezone are embedded as minutes on a
timeline with 1440-minute days; `hour` of an instant is the civil hour
of its day.  Python string truthiness (`if s:`) is embedded by
`pyTruthy`, and Python `dict` subscripting a non-dict value is embedded
by `Except` with a `typeError`.
-/

namespace Bolt

/-- Python truthiness of an optional string: `None` and `""` are falsy. -/
def pyTruthy : Option String → Bool
  | none => false
  | some s => !s.isEmpty

/-! ## Slot-Finder (`get_available_calendar_slots`, lines 1535-1623)

Time is minutes since an epoch midnight; a day is 1440 minutes.
Events fetched from the calendar are embedded as `Option (Nat × Nat)`:
`none` for an event whose `start`/`end` lack a `dateTime` field (the
source skips those), `some (bs, be)` for a parsed interval. -/
def OPEN_HOUR : Nat := 9

def CLOSE_HOUR : Nat := 19

def LAST_APPOINTMENT_HOUR : Nat := 18

/-- Civil hour of an instant, in minutes-since-epoch time. -/
def hourOf (t : Nat) : Nat := t % 1440 / 60

/-- Midnight of the day containing `t`. -/
def dayStart (t : Nat) : Nat := t / 1440 * 1440

/-- `(next_slot_time + timedelta(days=1)).replace(hour=OPEN_HOUR, minute=0, ...)`:
9am of the day after the one containing `t`. -/
def nextDayOpen (t : Nat) : Nat := dayStart t + 1440 + OPEN_HOUR * 60

/-- Round `t` up to the next whole hour (`replace(minute=0,...)` then
`+= timedelta(hours=1)` when the minute was nonzero). -/
def ceilHour (t : Nat) : Nat := (t + 59) / 60 * 60

/-- First candidate slot: one hour from now rounded up to the next whole
hour, pushed to the next day's open hour when it falls outside the
operating window (lines 1540-1554). -/
def firstCandidate (now : Nat) : Nat :=
  let t := ceilHour (now + 60)
  if CLOSE_HOUR ≤ hourOf t ∨ hourOf t < OPEN_HOUR then nextDayOpen t else t

/-- The conflict test of lines 1577-1589: a 60-minute candidate at
`cur` overlaps a parsed event `(bs, be)` iff `cur < be ∧ cur + 60 > bs`;
events without parsed times are skipped. -/
def slotConflict (cur : Nat) : Option (Nat × Nat) → Bool
  | none => false
  | some (bs, be) => decide (cur < be) && decide (cur + 60 > bs)

def anyConflict (events : List (Option (Nat × Nat))) (cur : Nat) : Bool :=
  events.any (slotConflict cur)

/-- The in-operating-hours test of line 1568. -/
def inWindow (t : Nat) : Bool :=
  decide (OPEN_HOUR ≤ hourOf t) && decide (hourOf t ≤ LAST_APPOINTMENT_HOUR)

/-- The per-iteration advance of lines 1608-1613: one hour forward,
jumping to the next day's open hour when past the last bookable hour
(or before opening). -/
def advanceCheck (cur : Nat) : Nat :=
  let nxt := cur + 60
  if LAST_APPOINTMENT_HOUR < hourOf nxt ∨ hourOf nxt < OPEN_HOUR then nextDayOpen nxt else nxt

/-- The search loop of lines 1565-1623 specialised to `num_slots = 1`
(the only value the tool dispatcher passes): return the first
conflict-free in-window hour strictly before `maxDate`, else `none`
(the source's explicit empty list). -/
def searchSlot (maxDate : Nat) (events : List (Option (Nat × Nat))) (cur : Nat) :
    Option Nat :=
  if h : cur < maxDate then
    if inWindow cur then
      if anyConflict events cur then searchSlot maxDate events (advanceCheck cur)
      else some cur
    else searchSlot maxDate events (advanceCheck cur)
  else none
termination_by maxDate - cur
decreasing_by
  all_goals
    refine Nat.sub_lt_sub_left h ?_
    have hgt : ∀ u : Nat, u < nextDayOpen u := by
      intro u
      have hm : u % 1440 < 1440 := Nat.mod_lt _ (by norm_num)
      have hd : 1440 * (u / 1440) + u % 1440 = u := Nat.div_add_mod u 1440
      simp only [nextDayOpen, dayStart, OPEN_HOUR]
      omega
    simp only [advanceCheck]
    split
    · exact Nat.lt_trans (Nat.lt_add_of_pos_right (by norm_num)) (hgt _)
    · omega

/-- `get_available_calendar_slots` (real-calendar path, `num_slots = 1`):
the fetched horizon is `now + days_ahead` days. -/
def get_available_calendar_slots (now : Nat) (events : List (Option (Nat × Nat)))
    (daysAhead : Nat) : Option Nat :=
  searchSlot (now + daysAhead * 1440) events (firstCandidate now)

/-! ## CallSession (the per-call dict created at lines 2009-2024,
plus the keys other code attaches: voicemail fields, `call_failed`,
and the two fragment accumulators; `none` on a fragment accumulator
means the dict key is absent). -/
structure Session where
  caller_phone : Option String
  customer_name : Option String
  customer_email : Option String
  customer_phone : Option String
  business_type : Option String
  company_name : Option String
  appointment_datetime : Option String
  appointment_display : Option String
  voicemail_mode : Bool
  voicemail_reason : Option String
  voicemail_message : Option String
  voicemail_callback : Option String
  voicemail_urgency : Option String
  call_failed : Bool
  email_fragments : Option (List String)
  company_name_fragments : Option (List String)
  deriving Repr, DecidableEq

/-- A freshly created session (inbound-call webhook) for a given caller. -/
def freshSession (phone : Option String) : Session :=
  { caller_phone := phone, customer_name := none, customer_email := none,
    customer_phone := none, business_type := none, company_name := none,
    appointment_datetime := none, appointment_display := none,
    voicemail_mode := false, voicemail_reason := none, voicemail_message := none,
    voicemail_callback := none, voicemail_urgency := none, call_failed := false,
    email_fragments := none, company_name_fragments := none }

/-- An apostrophe, used to build string literals faithfully. -/
def apoc : Char := Char.ofNat 39

def apos : String := String.singleton apoc

/-! ## Tool Dispatcher (`response.function_call_arguments.done` branch of
`send_to_twilio`, lines 2857-3000).  Collaborator calls — the Slot-Finder
against the live calendar, the Twilio SMS sender, the voicemail database
insert — are embedded as an outcome record `Collab`. -/
structure Slot where
  dt : String
  display : String
  deriving Repr, DecidableEq

/-- The schema-relevant argument bag after `json.loads`; a key absent
from the JSON object is `none`. -/
structure Args where
  days_ahead : Option Nat
  slot_datetime : Option String
  slot_display : Option String
  reason : Option String
  message_content : Option String
  callback_number : Option String
  caller_name : Option String
  urgency : Option String
  deriving Repr, DecidableEq

def Args.empty : Args :=
  ⟨none, none, none, none, none, none, none, none⟩

/-- Outcome of `json.loads(arguments_str)`: malformed JSON is caught and
replaced by the empty bag (lines 2865-2868). -/
inductive ArgParse where
  | ok (a : Args)
  | malformed
  deriving Repr, DecidableEq

def ArgParse.toArgs : ArgParse → Args
  | .ok a => a
  | .malformed => Args.empty

/-- The JSON dict sent back as a function result.  `success = none`
means the dict has no `success` key (the slot-search results);
`first_available`/`next_business_day_slot` are `some v` when the key is
present with value `v` (`v = none` embeds JSON `null`). -/
structure FnResult where
  success : Option Bool
  message : String
  first_available : Option (Option Slot)
  next_business_day_slot : Option (Option Slot)
  deriving Repr, DecidableEq

/-- Messages written to the backend socket by the dispatcher. -/
inductive WireMsg where
  | functionOutput (call_id : String) (output : FnResult)
  | responseCreate
  deriving Repr, DecidableEq

/-- Side effects the dispatcher triggers on external collaborators. -/
inductive Effect where
  | smsSend (dest : String)
  | dbVoicemailInsert
  deriving Repr, DecidableEq

/-- Outcomes of the collaborators the dispatcher may consult. -/
structure Collab where
  slots : List Slot
  nextDaySlot : Option Slot
  smsOk : Bool
  dbUp : Bool
  deriving Repr, DecidableEq

def noSlotMsg : String := "No available appointments found in the next 14 days"

def bookFailResult : FnResult :=
  ⟨some false, "Missing required information for booking", none, none⟩

def trialSentMsg : String :=
  "Trial link texted to the caller" ++ apos ++
    "s phone. Let them know to check their texts."

def trialFailMsg : String :=
  "Failed to send text. Apologize and offer to email the link instead."

def trialNoPhoneMsg : String :=
  "No phone number available. Ask the caller for their phone number to text the link."

/-- One step of the dispatcher: function name, correlation id, parsed
arguments, the live session (or `none`), collaborator outcomes.
Returns the updated session, the messages sent to the backend, and the
collaborator side effects, in order. -/
def dispatch (name : String) (call_id : String) (raw : ArgParse)
    (session : Option Session) (collab : Collab) :
    Option Session × List WireMsg × List Effect :=
  let args := raw.toArgs
  let reply := fun (r : FnResult) (sess : Option Session) (effs : List Effect) =>
    (sess, [WireMsg.functionOutput call_id r, WireMsg.responseCreate], effs)
  if name = "get_available_slots" then
    match collab.slots with
    | s0 :: _ =>
        reply ⟨none, "First available appointment is " ++ s0.display,
               some (some s0), none⟩ session []
    | [] => reply ⟨none, noSlotMsg, some none, none⟩ session []
  else if name = "get_next_business_day_slot" then
    match collab.nextDaySlot with
    | some sl =>
        reply ⟨none, "Next business day slot: " ++ sl.display,
               none, some (some sl)⟩ session []
    | none =>
        reply ⟨none, "No available slots on next business day",
               none, some none⟩ session []
  else if name = "book_appointment" then
    match session with
    | some s =>
        if pyTruthy args.slot_datetime && pyTruthy args.slot_display then
          reply ⟨some true,
                 "Appointment booked for " ++ (args.slot_display.getD ""),
                 none, none⟩
            (some { s with appointment_datetime := args.slot_datetime,
                           appointment_display := args.slot_display }) []
        else reply bookFailResult session []
    | none => reply bookFailResult session []
  else if name = "send_trial_link" then
    match session.bind (fun s => s.caller_phone) with
    | some p =>
        if p.isEmpty then reply ⟨some false, trialNoPhoneMsg, none, none⟩ session []
        else
          reply ⟨some collab.smsOk,
                 if collab.smsOk then trialSentMsg else trialFailMsg,
                 none, none⟩ session [Effect.smsSend p]
    | none => reply ⟨some false, trialNoPhoneMsg, none, none⟩ session []
  else if name = "take_message" then
    let reason := args.reason.getD "caller requested"
    reply ⟨some true,
           "Voicemail mode activated. Say " ++ apos ++ "beep!" ++ apos ++
             " and prompt the caller to leave their message after the beep. Listen to their entire message, then call save_voicemail with the transcribed content.",
           none, none⟩
      (session.map fun s =>
        { s with voicemail_mode := true, voicemail_reason := some reason }) []
  else if name = "save_voicemail" then
    let mc := args.message_content.getD ""
    let urgency := args.urgency.getD "normal"
    let session2 := session.map fun s =>
      { s with voicemail_message := some mc,
               voicemail_callback := args.callback_number,
               voicemail_urgency := some urgency,
               customer_name :=
                 if pyTruthy args.caller_name then args.caller_name
                 else s.customer_name }
    let effs := if session.isSome && collab.dbUp then [Effect.dbVoicemailInsert] else []
    reply ⟨some true,
           "Voicemail saved successfully. Thank the caller and let them know someone will get back to them soon.",
           none, none⟩ session2 effs
  else (session, [], [])

/-! ## Turn & Interruption Controller
(`handle_speech_started_event`, lines 3034-3064).  Wall-clock instants
(`time.time()`, seconds as floats) and telephony media timestamps
(milliseconds) are both embedded as milliseconds; the 3.0-second grace
comparison becomes `< 3000`. -/
structure BridgeState where
  latest_media_timestamp : Nat
  last_assistant_item : Option String
  mark_queue : List String
  response_start_timestamp_twilio : Option Nat
  stream_start_time : Option Nat
  deriving Repr, DecidableEq

/-- Instructions the interruption handler emits: a
`conversation.item.truncate` to the backend and a `clear` to the
telephony socket. -/
inductive BridgeEvent where
  | truncateItem (item_id : String) (audio_end_ms : Int)
  | clearBuffer
  deriving Repr, DecidableEq

/-- The body below the grace-window guard (lines 3045-3064). -/
def interruptCore (st : BridgeState) : BridgeState × List BridgeEvent :=
  if !st.mark_queue.isEmpty && st.response_start_timestamp_twilio.isSome then
    match st.response_start_timestamp_twilio with
    | some ts0 =>
        let elapsed : Int := (st.latest_media_timestamp : Int) - (ts0 : Int)
        let evs :=
          (match st.last_assistant_item with
           | some item =>
               if item.isEmpty then [] else [BridgeEvent.truncateItem item elapsed]
           | none => []) ++ [BridgeEvent.clearBuffer]
        ({ st with mark_queue := [], last_assistant_item := none,
                   response_start_timestamp_twilio := none }, evs)
    | none => (st, [])
  else (st, [])

/-- `handle_speech_started_event`: ignore the signal entirely inside the
3-second grace window after stream start, otherwise truncate, clear and
reset. -/
def handle_speech_started_event (wallNow : Nat) (st : BridgeState) :
    BridgeState × List BridgeEvent :=
  match st.stream_start_time with
  | some t0 =>
      if (wallNow : Int) - (t0 : Int) < 3000 then (st, [])
      else interruptCore st
  | none => interruptCore st

/-! ## Backend connection retry (`connect_to_openai_with_retry`,
lines 264-316, and its use at lines 2331-2342).  The loop body's network
outcome at each attempt is a parameter `outcomes : Nat → Bool`.
The result records, for each attempt actually made, the wait that
preceded it (the source computes `retry_delay = base * 2 ** attempt`
every iteration but sleeps only when `attempt > 0`), and the index of
the successful attempt if any. -/
def WS_MAX_RETRIES : Nat := 3

def WS_RETRY_DELAY_BASE : Nat := 1

def connect_go (outcomes : Nat → Bool) (attempt : Nat) : Nat → List Nat × Option Nat
  | 0 => ([], none)
  | rem + 1 =>
      let retry_delay := WS_RETRY_DELAY_BASE * 2 ^ attempt
      let waited := if 0 < attempt then retry_delay else 0
      if outcomes attempt then ([waited], some attempt)
      else
        let rest := connect_go outcomes (attempt + 1) rem
        (waited :: rest.1, rest.2)

def connect_to_openai_with_retry (outcomes : Nat → Bool) : List Nat × Option Nat :=
  connect_go outcomes 0 WS_MAX_RETRIES

/-- What `handle_media_stream` does with the connection result
(lines 2331-2342): on `None` it increments the websocket failed-call
metric and returns before any relay loop starts; the session store is
not touched. -/
inductive StreamStart where
  | abortedNoRelay
  | relayStarted
  deriving Repr, DecidableEq

def handle_media_stream_connect (outcomes : Nat → Bool)
    (sessions : List (String × Session)) (failedCallsMetric : Nat) :
    StreamStart × List (String × Session) × Nat :=
  match (connect_to_openai_with_retry outcomes).2 with
  | none => (.abortedNoRelay, sessions, failedCallsMetric + 1)
  | some _ => (.relayStarted, sessions, failedCallsMetric)

/-! ## Finalization (`status_callback`, lines 3099-3178, and
`book_calendar_appointment`, lines 1764-1884).

`book_calendar_appointment` returns the Python value `False` (a bool)
when the calendar library is unavailable or no credentials are found,
and a dict `{'success': ..., 'link': ...}` otherwise; `status_callback`
subscripts the result with `['success']`, which raises `TypeError` on a
bool.  The embedding keeps both shapes. -/
inductive BookingOutcome where
  | libUnavailable
  | noCredentials
  | insertOk (link : String)
  | insertError
  deriving Repr, DecidableEq

inductive PyErr where
  | typeError
  deriving Repr, DecidableEq

/-- `booking_result['success']` on the value `book_calendar_appointment`
returned. -/
def bookingSubscriptSuccess : BookingOutcome → Except PyErr Bool
  | .libUnavailable => .error .typeError
  | .noCredentials => .error .typeError
  | .insertOk _ => .ok true
  | .insertError => .ok false

/-- Observable finalization actions, in program order.  `callerEmail`
records the recipient and whether an appointment was attached. -/
inductive FinEffect where
  | calendarInsertAttempt
  | callerEmail (dest : String) (withAppointment : Bool)
  | ownerSummaryEmail
  deriving Repr, DecidableEq

/-- The `/status` webhook handler.  E-mail senders never raise (their
bodies catch everything and return a bool), so the only failure channel
is the `TypeError` from subscripting a bool booking result. -/
def status_callback (callSid : String) (callStatus : String)
    (sessions : List (String × Session)) (booking : BookingOutcome) :
    Except PyErr (List (String × Session) × List FinEffect) := do
  let effects ←
    if callStatus = "completed" then
      match sessions.lookup callSid with
      | some session =>
          if session.call_failed then
            pure ([] : List FinEffect)
          else do
            let customer_email := session.customer_email
            let customer_name :=
              match session.customer_name with
              | some v => if v.isEmpty then "there" else v
              | none => "there"
            let business_type :=
              match session.business_type with
              | some v => if v.isEmpty then "business" else v
              | none => "business"
            let calEffs ←
              if pyTruthy session.appointment_datetime &&
                 !customer_name.isEmpty && !business_type.isEmpty then do
                let _ok ← bookingSubscriptSuccess booking
                pure [FinEffect.calendarInsertAttempt]
              else pure []
            let emailEffs :=
              match customer_email with
              | some e =>
                  if !e.isEmpty && pyTruthy session.appointment_datetime then
                    [FinEffect.callerEmail e true]
                  else if !e.isEmpty then [FinEffect.callerEmail e false]
                  else []
              | none => []
            pure (calEffs ++ emailEffs ++ [FinEffect.ownerSummaryEmail])
      | none => pure []
    else pure []
  let sessions2 := sessions.filter (fun kv => kv.1 ≠ callSid)
  pure (sessions2, effects)

/-! ## Concrete fixtures used by closed theorems. -/
/-- A completed demo call: appointment chosen, e-mail captured, no failure. -/
def sessBooked : Session :=
  { freshSession (some "+15551230000") with
      customer_name := some "Jane",
      customer_email := some "jane@example.com",
      business_type := some "Dental Office",
      appointment_datetime := some "2025-11-18T10:00:00",
      appointment_display := some "Tuesday at 10am" }

def collabOk : Collab := ⟨[], none, true, true⟩

def supportedTools : List String :=
  ["get_available_slots", "get_next_business_day_slot", "book_appointment",
   "send_trial_link", "take_message", "save_voicemail"]

/-! ## A small backtracking regex engine

The extractor (`extract_customer_info`, `validate_email`,
`normalize_email`) is built on Python `re`.  The engine below embeds the
exact fragment of `re` those patterns use: character classes, literals
(optionally case-insensitive, for `re.IGNORECASE`), concatenation,
alternation (leftmost branch preferred), greedy `?`, greedy and lazy
counted repetition of a character class, numbered capturing groups,
`^`, `$`, and `\b`.  `re.search` scans start positions left to right
and backtracks exactly like Python on this fragment: quantifiers over a
single character class have no internal choice points beyond the
repetition count, which is tried longest-first when greedy and
shortest-first when lazy. -/
abbrev CL := List Char

abbrev Caps := List (Nat × CL)

def cl (s : String) : CL := s.toList

inductive RE where
  | eps
  | cls (p : Char → Bool)
  | lit (ci : Bool) (cs : CL)
  | cat (a b : RE)
  | alt (a b : RE)
  | opt (a : RE)
  | reps (p : Char → Bool) (lo : Nat) (hi : Option Nat) (lazyRep : Bool)
  | group (n : Nat) (a : RE)
  | bos
  | eos
  | wb

def seqRE (l : List RE) : RE := l.foldr RE.cat RE.eps

/-- An alternation that never matches: the unit of `RE.alt`. -/
def failRE : RE := RE.cls (fun _ => false)

def altRE (l : List RE) : RE := l.foldr RE.alt failRE

def litsCI (l : List CL) : RE := altRE (l.map (RE.lit true))

def charMatches (ci : Bool) (pc c : Char) : Bool :=
  if ci then pc.toLower = c.toLower else pc = c

def isWordChar (c : Char) : Bool := c.isAlphanum || c = '_'

def atWordBoundary (prev : Option Char) (s : CL) : Bool :=
  let pw := match prev with | some c => isWordChar c | none => false
  let nw := match s with | c :: _ => isWordChar c | [] => false
  pw != nw

/-- The continuation style matcher's continuation: previous character,
remaining input, captures so far. -/
abbrev MK := Option Char → CL → Caps → Option (Caps × CL)

def matchLit (ci : Bool) : CL → Option Char → CL → Caps → MK → Option (Caps × CL)
  | [], prev, s, caps, k => k prev s caps
  | pc :: pcs, _, s, caps, k =>
      match s with
      | [] => none
      | c :: rest =>
          if charMatches ci pc c then matchLit ci pcs (some c) rest caps k else none

/-- Drop `n` characters, tracking the new previous character. -/
def consumeN : Nat → Option Char → CL → Option Char × CL
  | 0, prev, s => (prev, s)
  | _ + 1, prev, [] => (prev, [])
  | n + 1, _, c :: rest => consumeN n (some c) rest

/-- Try repetition counts in the given preference order. -/
def tryCounts (prev : Option Char) (s : CL) (caps : Caps) (k : MK) :
    List Nat → Option (Caps × CL)
  | [] => none
  | n :: rest =>
      let pr := consumeN n prev s
      match k pr.1 pr.2 caps with
      | some r => some r
      | none => tryCounts prev s caps k rest

def matchRE : RE → Option Char → CL → Caps → MK → Option (Caps × CL)
  | .eps, prev, s, caps, k => k prev s caps
  | .cls p, _, s, caps, k =>
      match s with
      | [] => none
      | c :: rest => if p c then k (some c) rest caps else none
  | .lit ci cs, prev, s, caps, k => matchLit ci cs prev s caps k
  | .cat a b, prev, s, caps, k =>
      matchRE a prev s caps (fun p2 s2 c2 => matchRE b p2 s2 c2 k)
  | .alt a b, prev, s, caps, k =>
      match matchRE a prev s caps k with
      | some r => some r
      | none => matchRE b prev s caps k
  | .opt a, prev, s, caps, k =>
      match matchRE a prev s caps k with
      | some r => some r
      | none => k prev s caps
  | .reps p lo hi lazyRep, prev, s, caps, k =>
      let avail := (s.takeWhile p).length
      let hiv := min (hi.getD avail) avail
      if lo > hiv then none
      else
        let counts :=
          if lazyRep then (List.range (hiv - lo + 1)).map (fun i => lo + i)
          else (List.range (hiv - lo + 1)).map (fun i => hiv - i)
        tryCounts prev s caps k counts
  | .group n a, prev, s, caps, k =>
      matchRE a prev s caps
        (fun p2 s2 c2 => k p2 s2 ((n, s.take (s.length - s2.length)) :: c2))
  | .bos, prev, s, caps, k =>
      match prev with
      | none => k prev s caps
      | some _ => none
  | .eos, prev, s, caps, k =>
      match s with
      | [] => k prev s caps
      | _ :: _ => none
  | .wb, prev, s, caps, k =>
      if atWordBoundary prev s then k prev s caps else none

/-- `re.search`: scan start positions left to right; on success return
(prefix before the match, matched text, captures, rest). -/
def searchAux (re : RE) (pre : CL) (prev : Option Char) (s : CL) :
    Option (CL × CL × Caps × CL) :=
  match matchRE re prev s [] (fun _ s2 caps => some (caps, s2)) with
  | some (caps, rest) =>
      some (pre.reverse, s.take (s.length - rest.length), caps, rest)
  | none =>
      match s with
      | [] => none
      | c :: t => searchAux re (c :: pre) (some c) t

def reSearch (re : RE) (s : CL) : Option (CL × CL × Caps × CL) :=
  searchAux re [] none s

/-- `re.match`: anchored at position 0 only. -/
def reMatchStart (re : RE) (s : CL) : Option (Caps × CL) :=
  matchRE re none s [] (fun _ s2 caps => some (caps, s2))

/-- `match.group(n)`. -/
def capGet (caps : Caps) (n : Nat) : Option CL :=
  (caps.find? (fun kv => kv.1 == n)).map (fun kv => kv.2)

/-- `re.sub(pat, '', s)` for a pattern that can match at most once
(each use below is anchored by `^` or `$`). -/
def reSubOnce (re : RE) (s : CL) : CL :=
  match reSearch re s with
  | some (pre, _, _, rest) => pre ++ rest
  | none => s

/-! ## Python string helpers on `CL`. -/
def isSpaceC (c : Char) : Bool := c = ' ' || c = '\t' || c = '\n' || c = '\r'

def lowerCL (s : CL) : CL := s.map Char.toLower

def trimCL (s : CL) : CL :=
  ((s.dropWhile isSpaceC).reverse.dropWhile isSpaceC).reverse

/-- `str.replace(old, new)`, non-overlapping left to right; the fuel is
the input length, which suffices because every step consumes at least
one character. -/
def replaceAllGo (old new : CL) : Nat → CL → CL
  | _, [] => []
  | 0, s => s
  | fuel + 1, c :: t =>
      if old.isPrefixOf (c :: t) && !old.isEmpty then
        new ++ replaceAllGo old new fuel (t.drop (old.length - 1))
      else c :: replaceAllGo old new fuel t

def replaceAll (old new s : CL) : CL :=
  if old.isEmpty then s else replaceAllGo old new s.length s

/-- `str.replace(old, new, 1)`. -/
def replaceFirstGo (old new : CL) : CL → CL
  | [] => []
  | c :: t =>
      if old.isPrefixOf (c :: t) && !old.isEmpty then new ++ t.drop (old.length - 1)
      else c :: replaceFirstGo old new t

/-- Python `in` on strings: substring containment. -/
def containsSub (hay ndl : CL) : Bool :=
  match hay with
  | [] => ndl.isEmpty
  | _ :: t => ndl.isPrefixOf hay || containsSub t ndl

/-- `str.split()` with no argument: split on whitespace runs, no empties. -/
def splitWsGo (cur : CL) : CL → List CL
  | [] => if cur.isEmpty then [] else [cur.reverse]
  | c :: t =>
      if isSpaceC c then
        if cur.isEmpty then splitWsGo [] t else cur.reverse :: splitWsGo [] t
      else splitWsGo (c :: cur) t

def splitWsCL (s : CL) : List CL := splitWsGo [] s

/-- `str.title()`: uppercase a letter that follows a non-letter,
lowercase the other letters. -/
def titleGo (prevAlpha : Bool) : CL → CL
  | [] => []
  | c :: t =>
      (if c.isAlpha then (if prevAlpha then c.toLower else c.toUpper) else c) ::
        titleGo c.isAlpha t

def titleCL (s : CL) : CL := titleGo false s

def joinSpace (l : List CL) : CL := List.intercalate [' '] l

/-- Python `l[-3:]`. -/
def lastThree {α : Type} (l : List α) : List α := l.drop (l.length - 3)

/-! ## Character classes used by the extractor's patterns. -/
def pLower (c : Char) : Bool := 'a' ≤ c && c ≤ 'z'

def pUpper (c : Char) : Bool := 'A' ≤ c && c ≤ 'Z'

def pAlpha (c : Char) : Bool := pLower c || pUpper c

def pDigit (c : Char) : Bool := c.isDigit

/-- `[A-Za-z0-9._%+-]`. -/
def pEmailLocal (c : Char) : Bool :=
  pAlpha c || pDigit c || c = '.' || c = '_' || c = '%' || c = '+' || c = '-'

/-- `[A-Za-z0-9.-]`. -/
def pEmailDomain (c : Char) : Bool := pAlpha c || pDigit c || c = '.' || c = '-'

/-- `[A-Z|a-z]` (the class literally includes a pipe). -/
def pTldChar (c : Char) : Bool := pUpper c || pLower c || c = '|'

/-- `[a-z-]`. -/
def pLowerDash (c : Char) : Bool := pLower c || c = '-'

/-- `[a-z0-9-]`. -/
def pLowerDigDash (c : Char) : Bool := pLower c || pDigit c || c = '-'

/-- `[a-z0-9\._-]`. -/
def pUserCls (c : Char) : Bool :=
  pLower c || pDigit c || c = '.' || c = '_' || c = '-'

/-- `[A-Za-z0-9\s&']`. -/
def pCompanyCls (c : Char) : Bool :=
  pAlpha c || pDigit c || isSpaceC c || c = '&' || c = apoc

def wsp : RE := RE.reps isSpaceC 1 none false

def wspOpt : RE := RE.reps isSpaceC 0 none false

/-! ## `validate_email` (lines 1051-1081) and `normalize_email`
(lines 1083-1118). -/
/-- `^[a-zA-Z0-9._%+-]+@[a-zA-Z0-9.-]+\.[a-zA-Z]{2,}$`. -/
def validateRe : RE :=
  seqRE [RE.reps pEmailLocal 1 none false, RE.lit false (cl "@"),
         RE.reps pEmailDomain 1 none false, RE.lit false (cl "."),
         RE.reps pAlpha 2 none false, RE.eos]

def validate_email (e : CL) : Bool :=
  if e.isEmpty then false
  else if (reMatchStart validateRe e).isNone then false
  else if e.count '@' ≠ 1 then false
  else
    let lcl := e.takeWhile (fun c => c ≠ '@')
    let dom := (e.dropWhile (fun c => c ≠ '@')).drop 1
    if lcl.length = 0 || lcl.length > 64 then false
    else if dom.length = 0 || dom.length > 255 then false
    else if !dom.contains '.' then false
    else true

/-- The replacement table of `normalize_email`, in insertion order. -/
def normReplacements : List (CL × CL) :=
  [(cl "4ward", cl "forward"), (cl "2", cl "to"), (cl "4", cl "for"),
   (cl "1", cl "one"), (cl "8", cl "eight"), (cl "0", cl "o"),
   (cl "at", cl "@"), (cl " at ", cl "@"), (cl " dot ", cl "."),
   (cl "dot com", cl ".com"), (cl "dot net", cl ".net"),
   (cl "dot org", cl ".org"), (cl "dot io", cl ".io"), (cl " ", [])]

def normalize_email (e : CL) : CL :=
  let n0 := trimCL (lowerCL e)
  let n1 := normReplacements.foldl (fun acc pr => replaceAll pr.1 pr.2 acc) n0
  if !n1.contains '@' && containsSub (lowerCL e) (cl "at") then
    replaceFirstGo (cl "at") (cl "@") n1
  else n1

/-! ## The extractor's regex patterns (lines 1126-1384). -/
/-- `\b[A-Za-z0-9._%+-]+@[A-Za-z0-9.-]+\.[A-Z|a-z]{2,}\b` (line 1127). -/
def directEmailRe : RE :=
  seqRE [RE.wb, RE.reps pEmailLocal 1 none false, RE.lit false (cl "@"),
         RE.reps pEmailDomain 1 none false, RE.lit false (cl "."),
         RE.reps pTldChar 2 none false, RE.wb]

/-- `(com|net|org|io|ai|us|uk|ca|gov|edu)` under a group. -/
def tldAlt : RE :=
  altRE ([cl "com", cl "net", cl "org", cl "io", cl "ai", cl "us", cl "uk",
          cl "ca", cl "gov", cl "edu"].map (RE.lit false))

/-- The `spoken_patterns` list (lines 1151-1164) with each pattern's
number of capturing groups (what `len(match.groups())` yields). -/
def spokenPatterns : List (RE × Nat) :=
  [(seqRE [RE.group 1 (RE.reps pLowerDash 1 none false), wsp,
           RE.lit false (cl "bone"), wsp,
           RE.group 2 (RE.reps pDigit 1 none false), wsp,
           RE.lit false (cl "at"), wsp,
           RE.group 3 (RE.reps pLowerDigDash 1 none false), wsp,
           RE.lit false (cl "dot"), wsp, RE.group 4 tldAlt], 4),
   (seqRE [RE.group 1 (RE.reps pLowerDash 1 none false),
           RE.lit false (cl "bone"), wspOpt,
           RE.group 2 (RE.reps pDigit 1 none false), wsp,
           RE.lit false (cl "at"), wsp,
           RE.group 3 (RE.reps pLowerDigDash 1 none false), wsp,
           RE.lit false (cl "dot"), wsp, RE.group 4 tldAlt], 4),
   (seqRE [RE.group 1 (RE.reps pLowerDash 1 none false), wspOpt,
           RE.group 2 (RE.reps pDigit 1 none false), wsp,
           RE.lit false (cl "at"), wsp,
           RE.group 3 (RE.reps pLowerDigDash 1 none false), wsp,
           RE.lit false (cl "dot"), wsp, RE.group 4 tldAlt], 4),
   (seqRE [RE.group 1 (RE.reps pUserCls 1 none false), wsp,
           RE.lit false (cl "at"), wsp,
           RE.group 2 (RE.reps pLowerDigDash 1 none false), wsp,
           RE.lit false (cl "dot"), wsp, RE.group 3 tldAlt], 3),
   (seqRE [RE.group 1 (RE.reps pUserCls 1 none false), wsp,
           RE.lit false (cl "at"), wsp,
           RE.group 2 (RE.reps pLowerDigDash 1 none false), wsp,
           RE.lit false (cl "dot"), wsp, RE.lit false (cl "co"), wsp,
           RE.lit false (cl "dot"), wsp,
           RE.group 3 (altRE ([cl "uk", cl "nz", cl "za"].map (RE.lit false)))], 3),
   (seqRE [RE.group 1 (RE.reps pUserCls 1 none false), wsp,
           RE.lit false (cl "at"), wsp,
           RE.group 2 (RE.reps pLowerDigDash 1 none false), wsp,
           RE.lit false (cl "dot"), wsp, RE.lit false (cl "co")], 2),
   (seqRE [RE.group 1 (RE.reps pUserCls 1 none false), RE.lit false (cl "@"),
           RE.group 2 (RE.reps pLowerDigDash 1 none false), wsp,
           RE.lit false (cl "dot"), wsp, RE.group 3 tldAlt], 3),
   (seqRE [RE.group 1 (RE.reps pUserCls 1 none false), wsp,
           RE.lit false (cl "at"), wsp,
           RE.group 2 (RE.reps pLowerDigDash 1 none false),
           RE.lit false (cl "."), RE.group 3 tldAlt], 3)]

/-- `^[a-z-]+\s*\d*\.?$` — the "short bare word+digits" fragment shape
(line 1180), used through `re.match`. -/
def fragShapeRe : RE :=
  seqRE [RE.reps pLowerDash 1 none false, wspOpt,
         RE.reps pDigit 0 none false, RE.opt (RE.lit false (cl ".")), RE.eos]

/-- `([a-z]+(?:\s+[a-z]+)?)` under `re.IGNORECASE`: one or two words. -/
def nameGroupRe : RE :=
  RE.cat (RE.reps pAlpha 1 none false)
    (RE.opt (RE.cat wsp (RE.reps pAlpha 1 none false)))

/-- The `name_patterns` list (lines 1288-1291), `re.IGNORECASE`. -/
def namePatterns : List RE :=
  [seqRE [litsCI [cl "my name is", cl "my name" ++ [apoc] ++ cl "s",
                  cl "i" ++ [apoc] ++ cl "m", cl "i am", cl "this is",
                  cl "it" ++ [apoc] ++ cl "s", cl "speaking with"],
          wsp, RE.group 1 nameGroupRe],
   seqRE [RE.bos, RE.group 1 nameGroupRe,
          altRE [RE.lit false (cl "."), RE.lit false (cl ","),
                 RE.lit false (cl "!"), RE.lit false (cl "?"), RE.eos]]]

def excludedNames : List String :=
  ["Sure", "Yes", "Yeah", "Okay", "Great", "Perfect", "Hello", "Hi", "Hey",
   "Thanks", "Thank", "Ready", "Ready To", "Absolutely", "Definitely",
   "Yep", "Yup", "Nope", "Nah"]

def businessKeywords : List String :=
  ["salon", "shop", "gym", "restaurant", "cafe", "bakery", "hotel", "motel",
   "spa", "barbershop", "pharmacy", "clinic", "hospital", "practice",
   "school", "daycare", "library", "bookstore", "boutique", "store",
   "bar", "pub", "nightclub", "theater", "theatre", "museum", "gallery",
   "garage", "dealership", "workshop", "factory", "warehouse", "studio",
   "office", "firm", "agency", "center", "company", "business",
   "hvac", "plumbing", "electrical", "contractor", "roofing", "landscaping",
   "cleaning", "painting", "flooring", "carpentry", "handyman"]

def excludedAdjectives : List String :=
  ["a", "an", "the", "my", "our", "your", "this", "that", "have", "own", "run"]

/-- `rf'\b([a-z]+)\s+{keyword}\b'` on the lowercased text. -/
def keywordRe (kw : String) : RE :=
  seqRE [RE.wb, RE.group 1 (RE.reps pLower 1 none false), wsp,
         RE.lit false (cl kw), RE.wb]

/-- `(?:\.|,|!|\s+and\s|$)` — the company-name terminator with `!`. -/
def companyTermBang : RE :=
  altRE [RE.lit false (cl "."), RE.lit false (cl ","), RE.lit false (cl "!"),
         seqRE [wsp, RE.lit true (cl "and"), RE.cls isSpaceC], RE.eos]

/-- `(?:\.|,|\s+and\s|$)` — the company-name terminator without `!`. -/
def companyTerm : RE :=
  altRE [RE.lit false (cl "."), RE.lit false (cl ","),
         seqRE [wsp, RE.lit true (cl "and"), RE.cls isSpaceC], RE.eos]

/-- `([A-Z][A-Za-z0-9\s&']{lo,30}?)` — under `re.IGNORECASE` the
leading `[A-Z]` matches any letter. -/
def companyGroup (lo : Nat) : RE :=
  RE.group 1 (RE.cat (RE.cls pAlpha) (RE.reps pCompanyCls lo (some 30) true))

/-- The `company_patterns` list (lines 1313-1322), `re.IGNORECASE`. -/
def companyPatterns : List RE :=
  [seqRE [litsCI [cl "calling from", cl "from"], wsp, companyGroup 2,
          companyTermBang],
   seqRE [litsCI [cl "shop", cl "salon", cl "business", cl "company",
                  cl "practice", cl "office", cl "firm", cl "clinic",
                  cl "studio", cl "center"],
          RE.opt (RE.lit true ([apoc] ++ cl "s")), wsp,
          RE.opt (RE.cat (RE.lit true (cl "name")) wsp),
          RE.lit true (cl "is"), wsp,
          RE.group 1 (RE.reps pCompanyCls 2 (some 30) true), companyTerm],
   seqRE [litsCI [cl "it" ++ [apoc] ++ cl "s", cl "its"], wsp,
          RE.lit true (cl "called"), wsp,
          RE.group 1 (RE.reps pCompanyCls 2 (some 30) true), companyTerm],
   seqRE [RE.opt (RE.cat (RE.lit true (cl "the")) wsp),
          RE.lit true (cl "name"), wsp,
          RE.opt (seqRE [RE.lit true (cl "of"), wsp, RE.lit true (cl "my"), wsp,
                         altRE [seqRE [RE.lit true (cl "nail"), wsp,
                                       RE.lit true (cl "salon")],
                                seqRE [RE.lit true (cl "tattoo"), wsp,
                                       RE.lit true (cl "shop")],
                                RE.lit true (cl "shop"), RE.lit true (cl "salon"),
                                RE.lit true (cl "business"),
                                RE.lit true (cl "company")],
                         wsp]),
          RE.lit true (cl "is"), wsp,
          RE.group 1 (RE.reps pCompanyCls 2 (some 30) true), companyTerm],
   seqRE [altRE [seqRE [RE.lit true (cl "demo"), wsp, RE.lit true (cl "for")],
                 seqRE [RE.lit true (cl "set"), wsp, RE.lit true (cl "up"), wsp,
                        RE.lit true (cl "for")],
                 RE.lit true (cl "help"), RE.lit true (cl "for")],
          wsp, companyGroup 2, companyTermBang],
   seqRE [RE.alt RE.bos (RE.cls isSpaceC), companyGroup 1, wsp,
          RE.lit true (cl "and"), wsp, RE.reps pEmailLocal 1 none false,
          RE.lit false (cl "@")]]

def excludedCompany : List String :=
  ["your", "my", "the", "a", "an", "there", "here", "you", "we", "they",
   "our", "your demo", "a demo", "thrive", "tony", "mike", "john", "sarah",
   "my email", "my email address", "email address", "my phone",
   "phone number", "my number", "that", "this", "it", "something"]

def commonPhrases : List CL :=
  [cl "the name of my", cl "my business is", cl "my shop is", cl "yes",
   cl "no", cl "thank you", cl "thanks", cl "bye", cl "goodbye", cl "hello",
   cl "hi", cl "hey", cl "okay", cl "ok", cl "sure", cl "great", cl "perfect",
   cl "nice", cl "wonderful", cl "i see", cl "got it", cl "right",
   cl "correct", cl "exactly", cl "almost", cl "it is", cl "its",
   cl "it" ++ [apoc] ++ cl "s", cl "that is", cl "that" ++ [apoc] ++ cl "s",
   cl "thats", cl "i" ++ [apoc] ++ cl "m sorry", cl "im sorry", cl "sorry",
   cl "pardon", cl "excuse me", cl "what", cl "huh", cl "i would love to",
   cl "i would", cl "my email address"]

def emailWords : List CL :=
  [cl "at", cl "dot", cl "com", cl "net", cl "org", cl "hotmail", cl "gmail",
   cl "yahoo", cl "outlook", cl "email", cl "mail", cl "address", cl "@"]

/-- `^(the|a|an)\s+`, `re.IGNORECASE`. -/
def leadArticleRe : RE :=
  seqRE [RE.bos, altRE [RE.lit true (cl "the"), RE.lit true (cl "a"),
                        RE.lit true (cl "an")], wsp]

/-- `\s+(is|are|and)\.?$`, `re.IGNORECASE`. -/
def trailFillerRe : RE :=
  seqRE [wsp, altRE [RE.lit true (cl "is"), RE.lit true (cl "are"),
                     RE.lit true (cl "and")],
         RE.opt (RE.lit false (cl ".")), RE.eos]

/-! ## `extract_customer_info` (lines 1120-1384), split into its
sequential field-extraction steps. -/
/-- Step 1 (lines 1126-1145): direct e-mail pattern match on the raw
text, normalized and then validated; an invalid normalization is
discarded outright. -/
def emailDirectStep (text : CL) (s : Session) : Session :=
  match reSearch directEmailRe text with
  | some (_, matched, _, _) =>
      let norm := normalize_email matched
      if validate_email norm then { s with customer_email := some (String.mk norm) }
      else s
  | none => s

/-- `username.replace(" ", "").replace("-", "").replace(".", "")`. -/
def cleanUser (u : CL) : CL := u.filter (fun c => !(c = ' ' || c = '-' || c = '.'))

/-- Build the candidate e-mail from a spoken-pattern match
(lines 1204-1223).  The source's guard `'co dot' not in pattern` is
true for every pattern string (they all spell `co\s+dot`), so every
3-group pattern takes the `user@domain.tld` branch. -/
def buildSpokenEmail (cnt : Nat) (caps : Caps) : Option CL :=
  match cnt with
  | 4 =>
      match capGet caps 1, capGet caps 2, capGet caps 3, capGet caps 4 with
      | some g1, some g2, some g3, some g4 =>
          some (cleanUser (g1 ++ g2) ++ cl "@" ++ g3 ++ cl "." ++ g4)
      | _, _, _, _ => none
  | 3 =>
      match capGet caps 1, capGet caps 2, capGet caps 3 with
      | some g1, some g2, some g3 =>
          some (cleanUser g1 ++ cl "@" ++ g2 ++ cl "." ++ g3)
      | _, _, _ => none
  | 2 =>
      match capGet caps 1, capGet caps 2 with
      | some g1, some g2 => some (cleanUser g1 ++ cl "@" ++ g2 ++ cl ".co")
      | _, _ => none
  | _ => none

/-- The spoken-pattern loop (lines 1199-1238): first pattern whose
match builds a *valid* e-mail wins and clears the fragment buffer; an
invalid candidate is logged and the loop continues. -/
def trySpokenList : List (RE × Nat) → CL → Session → Session
  | [], _, s => s
  | (re, cnt) :: rest, combined, s =>
      match reSearch re combined with
      | some (_, _, caps, _) =>
          match buildSpokenEmail cnt caps with
          | some em =>
              if validate_email em then
                { s with customer_email := some (String.mk em),
                         email_fragments := none }
              else trySpokenList rest combined s
          | none => trySpokenList rest combined s
      | none => trySpokenList rest combined s

def fragExcludedList : List String :=
  ["my email", "email", "my email address", "email address", "is", "yes", "no"]

/-- Step 2 (lines 1169-1238): initialize/append the bounded e-mail
fragment buffer, then run the spoken patterns over the current text or,
once two fragments have accumulated, over their join. -/
def emailFragmentsStep (text : CL) (s : Session) : Session :=
  let text_lower := trimCL (lowerCL text)
  let tls := String.mk text_lower
  let frags0 := s.email_fragments.getD []
  let isFrag :=
    (containsSub text_lower (cl "at") || text_lower.contains '@' ||
     containsSub text_lower (cl "dot") || containsSub text_lower (cl ".com") ||
     containsSub text_lower (cl "hotmail") || containsSub text_lower (cl "gmail")) ||
    ((reMatchStart fragShapeRe text_lower).isSome &&
      decide ((splitWsCL text_lower).length ≤ 2))
  let frags1 :=
    if isFrag && !(fragExcludedList.contains tls) then lastThree (frags0 ++ [tls])
    else frags0
  let combined :=
    if frags1.length ≥ 2 then joinSpace (frags1.map String.toList)
    else lowerCL text
  trySpokenList spokenPatterns combined { s with email_fragments := some frags1 }

/-- The keyword search of lines 1259-1271 ("[adjective] [keyword]"),
skipping matches whose adjective is an article/filler. -/
def businessP1 : List String → CL → Option String
  | [], _ => none
  | kw :: rest, tl =>
      match reSearch (keywordRe kw) tl with
      | some (_, _, caps, _) =>
          match capGet caps 1 with
          | some adj =>
              if excludedAdjectives.contains (String.mk adj) then businessP1 rest tl
              else some (String.mk (titleCL (adj ++ cl " " ++ cl kw)))
          | none => businessP1 rest tl
      | none => businessP1 rest tl

def stripPunct (s : CL) : CL :=
  s.filter (fun c => !(c = '.' || c = ',' || c = '!' || c = '?' || c = ';' || c = ':'))

/-- Lines 1240-1283: `business_type` from an adjective+keyword phrase,
falling back to a standalone keyword among the words. -/
def businessOf (text : CL) : Option String :=
  let text_lower := lowerCL text
  match businessP1 businessKeywords text_lower with
  | some v => some v
  | none =>
      let ws := splitWsCL (stripPunct text_lower)
      (businessKeywords.find? (fun kw => ws.contains (cl kw))).map
        (fun kw => String.mk (titleCL (cl kw)))

/-- Step 3: `business_type` is captured once (guarded by truthiness). -/
def businessStep (text : CL) (s : Session) : Session :=
  if pyTruthy s.business_type then s
  else
    match businessOf text with
    | some v => { s with business_type := some v }
    | none => s

/-- The name-pattern loop of lines 1293-1304: a candidate in the
exclusion list or shorter than 2 characters does not stop the loop. -/
def nameOfList : List RE → CL → Option String
  | [], _ => none
  | re :: rest, text =>
      match reSearch re text with
      | some (_, _, caps, _) =>
          match capGet caps 1 with
          | some g1 =>
              let cand := String.mk (titleCL (trimCL g1))
              if !(excludedNames.contains cand) && decide (2 ≤ cand.length) then
                some cand
              else nameOfList rest text
          | none => nameOfList rest text
      | none => nameOfList rest text

def nameOf (text : CL) : Option String := nameOfList namePatterns text

/-- Step 4: `customer_name` is captured once (first accepted match wins). -/
def nameStep (text : CL) (s : Session) : Session :=
  if pyTruthy s.customer_name then s
  else
    match nameOf text with
    | some v => { s with customer_name := some v }
    | none => s

/-- The company-pattern loop of lines 1324-1341: a match whose stripped
capture hits the exclusion substrings or is a single character does not
stop the loop. -/
def companyOfList : List RE → CL → Option String
  | [], _ => none
  | re :: rest, text =>
      match reSearch re text with
      | some (_, _, caps, _) =>
          match capGet caps 1 with
          | some g1 =>
              let candC := trimCL g1
              let isExcl :=
                excludedCompany.any (fun ex => containsSub (lowerCL candC) (cl ex))
              if !isExcl && decide (1 < candC.length) then some (String.mk candC)
              else companyOfList rest text
          | none => companyOfList rest text
      | none => companyOfList rest text

/-- Step 5: `company_name` is always updatable by an explicit pattern. -/
def companyStep (text : CL) (s : Session) : Session :=
  match companyOfList companyPatterns text with
  | some v => { s with company_name := some v }
  | none => s

/-- Step 6 (lines 1343-1384): accumulate short capitalized texts as
company-name fragments; once two or more exist, join the last three,
strip a leading article and a trailing filler word, and accept the join
when longer than 3 characters (clearing the buffer).  Unlike the e-mail
buffer, this list is never truncated. -/
def companyFragmentsStep (text : CL) (s : Session) : Session :=
  if pyTruthy s.company_name then s
  else
    let stripped := trimCL text
    let headUpper := (text.head?.map Char.isUpper).getD false
    if !stripped.isEmpty && headUpper && decide ((splitWsCL stripped).length ≤ 3) then
      let frags0 := s.company_name_fragments.getD []
      let text_normalized := lowerCL (stripPunct stripped)
      let hasEmailWord := emailWords.any (fun w => containsSub text_normalized w)
      let looksLikeEmail :=
        text.contains '@' ||
          (containsSub text_normalized (cl "at") && text.any Char.isDigit)
      if !(commonPhrases.contains text_normalized) && !hasEmailWord &&
         !looksLikeEmail then
        let frags1 := frags0 ++ [String.mk stripped]
        if frags1.length ≥ 2 then
          let combined0 := joinSpace ((lastThree frags1).map String.toList)
          let combined1 := reSubOnce leadArticleRe combined0
          let combined2 := reSubOnce trailFillerRe combined1
          if combined2.length > 3 then
            { s with company_name := some (String.mk (titleCL combined2)),
                     company_name_fragments := none }
          else { s with company_name_fragments := some frags1 }
        else { s with company_name_fragments := some frags1 }
      else { s with company_name_fragments := some frags0 }
    else s

/-- `extract_customer_info` for a user utterance: the six steps in
source order. -/
def extract_customer_info (text : CL) (s : Session) : Session :=
  companyFragmentsStep text
    (companyStep text
      (nameStep text
        (businessStep text
          (emailFragmentsStep text
            (emailDirectStep text s)))))

def fragLen (o : Option (List String)) : Nat := (o.getD []).length

/-! ## Concrete utterance fixtures for the extractor claims. -/
def sessNew : Session := freshSession none

def uttFragment : CL := cl "at gmail dot com"

def uttShort : CL := cl "A"

def uttEmail1 : CL := cl "my email is a@b.com"

def uttEmail2 : CL := cl "sorry, it" ++ [apoc] ++ cl "s c@d.com"

def uttEmailBad : CL := cl "my email is nathan@site.com"

/-- Run the extractor `n` times on the same utterance. -/
def extractNTimes (t : CL) (s : Session) : Nat → Session
  | 0 => s
  | n + 1 => extract_customer_info t (extractNTimes t s n)

set_option maxRecDepth 16000

/-- Any slot the search returns is in the operating window, conflict-free
against every fetched event, and inside the horizon. -/
theorem searchSlot_sound (maxDate : Nat) (events : List (Option (Nat × Nat))) :
    ∀ cur, ∀ s, searchSlot maxDate events cur = some s →
      inWindow s = true ∧ anyConflict events s = false ∧ s < maxDate := by
  intro cur
  induction cur using searchSlot.induct maxDate events with
  | case1 x hx hwin hconf ih =>
    intro s hs
    rw [searchSlot] at hs
    simp [hx, hwin, hconf] at hs
    exact ih s hs
  | case2 x hx hwin hconf =>
    intro s hs
    rw [searchSlot] at hs
    simp [hx, hwin, hconf] at hs
    subst hs
    exact ⟨hwin, by simpa using hconf, hx⟩
  | case3 x hx hwin ih =>
    intro s hs
    rw [searchSlot] at hs
    simp [hx, hwin] at hs
    exact ih s hs
  | case4 x hx =>
    intro s hs
    rw [searchSlot] at hs
    simp [hx] at hs

/-- When every in-window instant below the horizon conflicts, the search
can only answer `none`. -/
theorem searchSlot_exhausted (maxDate : Nat) (events : List (Option (Nat × Nat)))
    (cur : Nat)
    (hall : ∀ t, inWindow t = true → t < maxDate → anyConflict events t = true) :
    searchSlot maxDate events cur = none := by
  cases hres : searchSlot maxDate events cur with
  | none => rfl
  | some s =>
    obtain ⟨hwin, hconf, hlt⟩ := searchSlot_sound maxDate events cur s hres
    rw [hall s hwin hlt] at hconf
    cases hconf

/-- C4: any slot returned by the Slot-Finder has zero overlap with every
parsed booked interval, overlap being `candidateStart < bookedEnd AND
candidateStart + 60min > bookedStart`; and when every in-window hour up
to the horizon conflicts, the explicit empty result is returned. -/
theorem C4_slot_finder_zero_overlap (now : Nat) (events : List (Option (Nat × Nat)))
    (daysAhead : Nat) :
    (∀ s, get_available_calendar_slots now events daysAhead = some s →
        ∀ bs be, some (bs, be) ∈ events → ¬(s < be ∧ s + 60 > bs))
    ∧ ((∀ t, inWindow t = true → t < now + daysAhead * 1440 →
          anyConflict events t = true) →
        get_available_calendar_slots now events daysAhead = none) := by
  constructor
  · intro s hs bs be hmem hover
    obtain ⟨_, hconf, _⟩ := searchSlot_sound _ events _ s hs
    have hc : slotConflict s (some (bs, be)) = true := by
      simp [slotConflict, hover.1, hover.2]
    have : anyConflict events s = true :=
      List.any_eq_true.mpr ⟨some (bs, be), hmem, hc⟩
    rw [this] at hconf
    cases hconf
  · intro hall
    exact searchSlot_exhausted _ events _ hall

/-- Witness for C4 at concrete inputs: a booked interval at minutes
[1200, 1900) does not overlap the returned slot 660, and with an
interval covering everything and a zero-day horizon the result is empty. -/
theorem C4_slot_finder_zero_overlap_witness :
    (¬((660 : Nat) < 1900 ∧ 660 + 60 > 1200))
    ∧ get_available_calendar_slots 0 [some (0, 1000000)] 0 = none := by
  constructor
  · exact (C4_slot_finder_zero_overlap 600 [some (1200, 1900)] 1).1 660
      (by simp [get_available_calendar_slots, firstCandidate, ceilHour, hourOf,
                searchSlot, inWindow, anyConflict, slotConflict, advanceCheck,
                nextDayOpen, dayStart, OPEN_HOUR, CLOSE_HOUR, LAST_APPOINTMENT_HOUR])
      1200 1900 (by simp)
  · exact (C4_slot_finder_zero_overlap 0 [some (0, 1000000)] 0).2
      (fun t _ ht => absurd ht (by omega))

/-- C5: the Slot-Finder never returns a candidate whose civil hour lies
outside [OPEN_HOUR, LAST_APPOINTMENT_HOUR] = [9, 18]; the first
candidate is one hour from now rounded up to the next whole hour,
advanced to the following day's open hour when it falls outside the
window. -/
theorem C5_slot_finder_operating_window (now : Nat)
    (events : List (Option (Nat × Nat))) (daysAhead : Nat) :
    (∀ s, get_available_calendar_slots now events daysAhead = some s →
        OPEN_HOUR ≤ hourOf s ∧ hourOf s ≤ LAST_APPOINTMENT_HOUR)
    ∧ firstCandidate now =
        (if CLOSE_HOUR ≤ hourOf (ceilHour (now + 60)) ∨ hourOf (ceilHour (now + 60)) < OPEN_HOUR
         then nextDayOpen (ceilHour (now + 60)) else ceilHour (now + 60)) := by
  constructor
  · intro s hs
    obtain ⟨hwin, _, _⟩ := searchSlot_sound _ events _ s hs
    simpa [inWindow] using hwin
  · rfl

/-- Witness for C5: at `now = 600` (10:00am) with a free calendar the
returned slot is minute 660 = 11:00am, inside the window. -/
theorem C5_slot_finder_operating_window_witness :
    OPEN_HOUR ≤ hourOf 660 ∧ hourOf 660 ≤ LAST_APPOINTMENT_HOUR :=
  (C5_slot_finder_operating_window 600 [] 1).1 660
    (by simp [get_available_calendar_slots, firstCandidate, ceilHour, hourOf,
              searchSlot, inWindow, anyConflict, advanceCheck,
              nextDayOpen, dayStart, OPEN_HOUR, CLOSE_HOUR, LAST_APPOINTMENT_HOUR])

/-- C1 (code_bug): in the status webhook for a completed, non-failed
session with a recorded slot, a calendar failure is soft only when
`book_calendar_appointment` caught an insert exception (dict result):
the caller e-mail, the owner summary and the session removal all still
happen.  But when the calendar library is unavailable or credentials
are missing the function returns the bool `False`, and
`booking_result['success']` raises `TypeError`: the handler dies before
sending any e-mail and before removing the session, contradicting the
claim that no failure of the calendar step prevents the later steps. -/
theorem C1_calendar_failure_not_always_soft :
    status_callback "CA1" "completed" [("CA1", sessBooked)] BookingOutcome.insertError =
      Except.ok ([], [FinEffect.calendarInsertAttempt,
                      FinEffect.callerEmail "jane@example.com" true,
                      FinEffect.ownerSummaryEmail])
    ∧ status_callback "CA1" "completed" [("CA1", sessBooked)] BookingOutcome.libUnavailable =
        Except.error PyErr.typeError
    ∧ status_callback "CA1" "completed" [("CA1", sessBooked)] BookingOutcome.noCredentials =
        Except.error PyErr.typeError := by
  refine ⟨?_, ?_, ?_⟩ <;> rfl

/-- C2 counterexample: two consecutive `send_trial_link` calls with no
state change in between.  The first call leaves the session exactly as
it was (no sent flag exists in the code), and the second call fires the
SMS again, contrary to the claim that a sent flag suppresses a resend. -/
theorem C2_counterexample_trial_link_resends :
    (dispatch "send_trial_link" "call_1" (ArgParse.ok Args.empty)
        (some (freshSession (some "+15551234567"))) collabOk).1 =
      some (freshSession (some "+15551234567"))
    ∧ (dispatch "send_trial_link" "call_1" (ArgParse.ok Args.empty)
        (some (freshSession (some "+15551234567"))) collabOk).2.2 =
      [Effect.smsSend "+15551234567"]
    ∧ (dispatch "send_trial_link" "call_2" (ArgParse.ok Args.empty)
        (dispatch "send_trial_link" "call_1" (ArgParse.ok Args.empty)
          (some (freshSession (some "+15551234567"))) collabOk).1 collabOk).2.2 =
      [Effect.smsSend "+15551234567"] := by
  refine ⟨?_, ?_, ?_⟩ <;> rfl

/-- C2 amended: the dispatcher records no sent flag — `send_trial_link`
never modifies the session — and every invocation with a truthy caller
phone attempts the SMS send again; suppression of repeats is delegated
to the prompt, not enforced in code. -/
theorem C2_trial_link_no_sent_flag (call_id : String) (raw : ArgParse)
    (s : Session) (collab : Collab) :
    (dispatch "send_trial_link" call_id raw (some s) collab).1 = some s
    ∧ (∀ p, s.caller_phone = some p → p.isEmpty = false →
        (dispatch "send_trial_link" call_id raw (some s) collab).2.2 =
          [Effect.smsSend p]) := by
  constructor
  · simp only [dispatch]
    norm_num
    cases hp : s.caller_phone with
    | none => simp
    | some p => cases hpe : p.isEmpty <;> simp [hpe]
  · intro p hp hpe
    simp only [dispatch]
    norm_num
    simp [hp, hpe]

/-- Witness for C2's amended theorem at a concrete session. -/
theorem C2_trial_link_no_sent_flag_witness :
    (dispatch "send_trial_link" "call_1" (ArgParse.ok Args.empty)
        (some (freshSession (some "+15551234567"))) collabOk).1 =
      some (freshSession (some "+15551234567"))
    ∧ (dispatch "send_trial_link" "call_1" (ArgParse.ok Args.empty)
        (some (freshSession (some "+15551234567"))) collabOk).2.2 =
      [Effect.smsSend "+15551234567"] := by
  have h := C2_trial_link_no_sent_flag "call_1" (ArgParse.ok Args.empty)
    (freshSession (some "+15551234567")) collabOk
  exact ⟨h.1, h.2 "+15551234567" rfl (by decide)⟩

/-- C10: the book-slot tool is atomic.  With a missing/empty
`slot_datetime` or `slot_display`, or no live session, it replies
`success: false` and returns the session bag exactly as it was; on
success it writes exactly the two appointment fields and triggers no
collaborator effect (in particular no calendar write). -/
theorem C10_book_slot_atomic (call_id : String) (raw : ArgParse)
    (session : Option Session) (collab : Collab) :
    (¬(pyTruthy raw.toArgs.slot_datetime = true ∧
        pyTruthy raw.toArgs.slot_display = true ∧ session.isSome = true) →
      dispatch "book_appointment" call_id raw session collab =
        (session, [WireMsg.functionOutput call_id bookFailResult,
                   WireMsg.responseCreate], []))
    ∧ (∀ s, session = some s → pyTruthy raw.toArgs.slot_datetime = true →
        pyTruthy raw.toArgs.slot_display = true →
        dispatch "book_appointment" call_id raw session collab =
          (some { s with appointment_datetime := raw.toArgs.slot_datetime,
                         appointment_display := raw.toArgs.slot_display },
           [WireMsg.functionOutput call_id
              ⟨some true,
               "Appointment booked for " ++ raw.toArgs.slot_display.getD "",
               none, none⟩,
            WireMsg.responseCreate], [])) := by
  constructor
  · intro hfail
    simp only [dispatch]
    norm_num
    cases session with
    | none => simp
    | some s =>
        cases hdt : pyTruthy raw.toArgs.slot_datetime with
        | false => simp [hdt]
        | true =>
            cases hdp : pyTruthy raw.toArgs.slot_display with
            | false => simp [hdt, hdp]
            | true => exact absurd ⟨hdt, hdp, rfl⟩ hfail
  · intro s hs hdt hdp
    subst hs
    simp only [dispatch]
    norm_num
    simp [hdt, hdp]

/-- Witness for C10 at concrete inputs: malformed arguments leave the
booked-session fixture untouched. -/
theorem C10_book_slot_atomic_witness :
    dispatch "book_appointment" "call_7" ArgParse.malformed
        (some sessBooked) collabOk =
      (some sessBooked,
       [WireMsg.functionOutput "call_7" bookFailResult, WireMsg.responseCreate],
       []) :=
  (C10_book_slot_atomic "call_7" ArgParse.malformed (some sessBooked) collabOk).1
    (by decide)

/-- C3 counterexample: for a ToolCall whose function name is none of the
six supported tools, `function_result` stays `None` and the dispatcher
sends nothing at all — zero ToolResults and no `response.create` —
contradicting "exactly one JSON ToolResult for every ToolCall (any
function name)". -/
theorem C3_counterexample_unknown_tool_gets_no_result :
    dispatch "transfer_call" "call_9" ArgParse.malformed
        (some (freshSession (some "+15551234567"))) collabOk =
      (some (freshSession (some "+15551234567")), [], []) := by
  rfl

/-- C3 amended: for every ToolCall naming one of the six supported
tools — any argument bag including malformed JSON, any session state,
any collaborator outcome — the dispatcher sends exactly one function
output correlated to the call id, immediately followed by a
`response.create`; the dispatcher itself is a total function, so no
collaborator failure escapes as an exception, and a failed or
impossible SMS send degrades to a `success: false` result. -/
theorem C3_one_result_per_supported_tool (name call_id : String)
    (raw : ArgParse) (session : Option Session) (collab : Collab)
    (hmem : name ∈ supportedTools) :
    (∃ r, (dispatch name call_id raw session collab).2.1 =
        [WireMsg.functionOutput call_id r, WireMsg.responseCreate])
    ∧ (name = "send_trial_link" → collab.smsOk = false →
        ∀ r, (dispatch name call_id raw session collab).2.1 =
            [WireMsg.functionOutput call_id r, WireMsg.responseCreate] →
          r.success ≠ some true) := by
  simp only [supportedTools, List.mem_cons, List.not_mem_nil, or_false] at hmem
  rcases hmem with rfl | rfl | rfl | rfl | rfl | rfl
  · refine ⟨?_, fun h => absurd h (by decide)⟩
    cases hsl : collab.slots with
    | nil => exact ⟨⟨none, noSlotMsg, some none, none⟩, by simp [dispatch, hsl]⟩
    | cons s0 rest =>
        exact ⟨⟨none, "First available appointment is " ++ s0.display,
                some (some s0), none⟩, by simp [dispatch, hsl]⟩
  · refine ⟨?_, fun h => absurd h (by decide)⟩
    cases hnd : collab.nextDaySlot with
    | none =>
        exact ⟨⟨none, "No available slots on next business day", none, some none⟩,
               by simp [dispatch, hnd]⟩
    | some sl =>
        exact ⟨⟨none, "Next business day slot: " ++ sl.display, none, some (some sl)⟩,
               by simp [dispatch, hnd]⟩
  · refine ⟨?_, fun h => absurd h (by decide)⟩
    cases session with
    | none => exact ⟨bookFailResult, by simp [dispatch]⟩
    | some s =>
        cases hb : pyTruthy raw.toArgs.slot_datetime && pyTruthy raw.toArgs.slot_display with
        | false => exact ⟨bookFailResult, by simp [dispatch, hb]⟩
        | true =>
            exact ⟨⟨some true,
                    "Appointment booked for " ++ raw.toArgs.slot_display.getD "",
                    none, none⟩, by simp [dispatch, hb]⟩
  · constructor
    · cases hcp : session.bind (fun s => s.caller_phone) with
      | none =>
          exact ⟨⟨some false, trialNoPhoneMsg, none, none⟩, by simp [dispatch, hcp]⟩
      | some p =>
          cases hpe : p.isEmpty with
          | true =>
              exact ⟨⟨some false, trialNoPhoneMsg, none, none⟩,
                     by simp [dispatch, hcp, hpe]⟩
          | false =>
              exact ⟨⟨some collab.smsOk,
                      if collab.smsOk then trialSentMsg else trialFailMsg,
                      none, none⟩, by simp [dispatch, hcp, hpe]⟩
    · intro _ hff r hr
      cases hcp : session.bind (fun s => s.caller_phone) with
      | none =>
          have h2 : (dispatch "send_trial_link" call_id raw session collab).2.1 =
              [WireMsg.functionOutput call_id ⟨some false, trialNoPhoneMsg, none, none⟩,
               WireMsg.responseCreate] := by simp [dispatch, hcp]
          rw [h2] at hr
          simp only [List.cons.injEq, WireMsg.functionOutput.injEq, true_and,
                     and_true] at hr
          rw [← hr]
          simp
      | some p =>
          cases hpe : p.isEmpty with
          | true =>
              have h2 : (dispatch "send_trial_link" call_id raw session collab).2.1 =
                  [WireMsg.functionOutput call_id ⟨some false, trialNoPhoneMsg, none, none⟩,
                   WireMsg.responseCreate] := by simp [dispatch, hcp, hpe]
              rw [h2] at hr
              simp only [List.cons.injEq, WireMsg.functionOutput.injEq, true_and,
                         and_true] at hr
              rw [← hr]
              simp
          | false =>
              have h2 : (dispatch "send_trial_link" call_id raw session collab).2.1 =
                  [WireMsg.functionOutput call_id
                     ⟨some collab.smsOk,
                      if collab.smsOk then trialSentMsg else trialFailMsg,
                      none, none⟩,
                   WireMsg.responseCreate] := by simp [dispatch, hcp, hpe]
              rw [h2] at hr
              simp only [List.cons.injEq, WireMsg.functionOutput.injEq, true_and,
                         and_true] at hr
              rw [← hr]
              simp [hff]
  · refine ⟨?_, fun h => absurd h (by decide)⟩
    refine ⟨⟨some true,
            "Voicemail mode activated. Say " ++ apos ++ "beep!" ++ apos ++
              " and prompt the caller to leave their message after the beep. Listen to their entire message, then call save_voicemail with the transcribed content.",
            none, none⟩, by simp [dispatch]⟩
  · refine ⟨?_, fun h => absurd h (by decide)⟩
    refine ⟨⟨some true,
            "Voicemail saved successfully. Thank the caller and let them know someone will get back to them soon.",
            none, none⟩, by simp [dispatch]⟩

/-- Witness for C3's amended theorem: a malformed-arguments
`book_appointment` call still gets exactly one correlated result and a
resume message. -/
theorem C3_one_result_per_supported_tool_witness :
    ∃ r, (dispatch "book_appointment" "call_7" ArgParse.malformed
        (some sessBooked) collabOk).2.1 =
      [WireMsg.functionOutput "call_7" r, WireMsg.responseCreate] :=
  (C3_one_result_per_supported_tool "book_appointment" "call_7"
    ArgParse.malformed (some sessBooked) collabOk (by decide)).1

/-- C8: barge-in handling.  Past the grace window, with a response in
flight (nonempty mark queue, a recorded response-start timestamp and a
truthy in-flight item id), the controller emits a truncate instruction
whose audio end is the elapsed playback `latest - T0`, then a clear of
the telephony buffer, and resets all in-flight tracking; inside the
grace window, the event is ignored entirely. -/
theorem C8_barge_in_truncate_and_reset (wallNow t0 ts0 : Nat)
    (st : BridgeState) (item : String) :
    (st.stream_start_time = some t0 → (wallNow : Int) - (t0 : Int) < 3000 →
      handle_speech_started_event wallNow st = (st, []))
    ∧ (st.stream_start_time = some t0 → 3000 ≤ (wallNow : Int) - (t0 : Int) →
        st.mark_queue ≠ [] →
        st.response_start_timestamp_twilio = some ts0 →
        st.last_assistant_item = some item → item.isEmpty = false →
        handle_speech_started_event wallNow st =
          ({ st with mark_queue := [], last_assistant_item := none,
                     response_start_timestamp_twilio := none },
           [BridgeEvent.truncateItem item
              ((st.latest_media_timestamp : Int) - (ts0 : Int)),
            BridgeEvent.clearBuffer])) := by
  constructor
  · intro hstart hgrace
    simp [handle_speech_started_event, hstart, hgrace]
  · intro hstart hlate hq hr hi hine
    have hqe : st.mark_queue.isEmpty = false := by
      cases hql : st.mark_queue with
      | nil => exact absurd hql hq
      | cons a l => simp
    simp [handle_speech_started_event, hstart, not_lt.mpr hlate,
          interruptCore, hqe, hr, hi, hine]

/-- Witness for C8: a response that started at media timestamp 1000ms,
with the latest media timestamp at 1250ms and the speech-started event
5 seconds into the call, is truncated at 250ms elapsed. -/
theorem C8_barge_in_truncate_and_reset_witness :
    handle_speech_started_event 5000
        { latest_media_timestamp := 1250, last_assistant_item := some "item_1",
          mark_queue := ["responsePart"], response_start_timestamp_twilio := some 1000,
          stream_start_time := some 0 } =
      ({ latest_media_timestamp := 1250, last_assistant_item := none,
         mark_queue := [], response_start_timestamp_twilio := none,
         stream_start_time := some 0 },
       [BridgeEvent.truncateItem "item_1" 250, BridgeEvent.clearBuffer]) := by
  have h := (C8_barge_in_truncate_and_reset 5000 0 1000
    { latest_media_timestamp := 1250, last_assistant_item := some "item_1",
      mark_queue := ["responsePart"], response_start_timestamp_twilio := some 1000,
      stream_start_time := some 0 } "item_1").2
    rfl (by norm_num) (by simp) rfl rfl (by decide)
  simpa using h

/-- C9 counterexample: with every attempt failing, the waits that
precede attempts 0, 1, 2 are 0s, 2s, 4s — attempt 0 is made immediately,
not after `base * 2 ^ 0 = 1` second as the claim's "for every attempt
number k (0-based)" requires — and exhaustion does not record a
terminal failure on the session store: the handler only bumps the
failed-call metric and returns, leaving every session untouched. -/
theorem C9_counterexample_no_wait_before_first_attempt :
    (connect_to_openai_with_retry (fun _ => false)).1 = [0, 2, 4]
    ∧ ¬((connect_to_openai_with_retry (fun _ => false)).1.headD 99 =
          WS_RETRY_DELAY_BASE * 2 ^ 0)
    ∧ handle_media_stream_connect (fun _ => false) [("CA1", sessBooked)] 0 =
        (StreamStart.abortedNoRelay, [("CA1", sessBooked)], 1) := by
  refine ⟨?_, ?_, ?_⟩ <;> decide

/-- C9 amended: the first attempt is immediate and each retry attempt
`k ≥ 1` is preceded by a wait of `base * 2 ^ k` seconds (the wait list
is always a prefix of `[0, 2, 4]`); at most `WS_MAX_RETRIES = 3`
attempts are made, and when all fail the connection result is `None`,
whereupon the media-stream handler aborts before any relay, increments
the failed-call metric, and leaves the session store unchanged. -/
theorem C9_retry_backoff_shape (outcomes : Nat → Bool) :
    (connect_to_openai_with_retry outcomes).1.length ≤ WS_MAX_RETRIES
    ∧ (connect_to_openai_with_retry outcomes).1 =
        List.take (connect_to_openai_with_retry outcomes).1.length [0, 2, 4]
    ∧ ((∀ k, k < WS_MAX_RETRIES → outcomes k = false) →
        (connect_to_openai_with_retry outcomes).2 = none
        ∧ ∀ sessions metric,
            handle_media_stream_connect outcomes sessions metric =
              (StreamStart.abortedNoRelay, sessions, metric + 1)) := by
  cases h0 : outcomes 0 with
  | true =>
      refine ⟨?_, ?_, fun hall => by simp [hall 0 (by norm_num [WS_MAX_RETRIES])] at h0⟩ <;>
        simp [connect_to_openai_with_retry, connect_go, WS_MAX_RETRIES,
              WS_RETRY_DELAY_BASE, h0]
  | false =>
      cases h1 : outcomes 1 with
      | true =>
          refine ⟨?_, ?_, fun hall => by simp [hall 1 (by norm_num [WS_MAX_RETRIES])] at h1⟩ <;>
            simp [connect_to_openai_with_retry, connect_go, WS_MAX_RETRIES,
                  WS_RETRY_DELAY_BASE, h0, h1]
      | false =>
          cases h2 : outcomes 2 with
          | true =>
              refine ⟨?_, ?_, fun hall => by simp [hall 2 (by norm_num [WS_MAX_RETRIES])] at h2⟩ <;>
                simp [connect_to_openai_with_retry, connect_go, WS_MAX_RETRIES,
                      WS_RETRY_DELAY_BASE, h0, h1, h2]
          | false =>
              have hconn : connect_to_openai_with_retry outcomes = ([0, 2, 4], none) := by
                simp [connect_to_openai_with_retry, connect_go, WS_MAX_RETRIES,
                      WS_RETRY_DELAY_BASE, h0, h1, h2]
              refine ⟨by simp [hconn, WS_MAX_RETRIES], by simp [hconn], fun _ => ?_⟩
              refine ⟨by simp [hconn], fun sessions metric => ?_⟩
              simp [handle_media_stream_connect, hconn]

/-- Witness for C9's amended theorem with every attempt failing. -/
theorem C9_retry_backoff_shape_witness :
    (connect_to_openai_with_retry (fun _ => false)).2 = none
    ∧ ∀ sessions metric,
        handle_media_stream_connect (fun _ => false) sessions metric =
          (StreamStart.abortedNoRelay, sessions, metric + 1) :=
  (C9_retry_backoff_shape (fun _ => false)).2.2 (fun _ _ => rfl)

/-! ## Field-preservation lemmas for the extractor steps.

Each step only writes its own fields, so the other fields project
through unchanged. -/
theorem trySpokenList_name (l : List (RE × Nat)) (c : CL) (s : Session) :
    (trySpokenList l c s).customer_name = s.customer_name := by
  induction l with
  | nil => rfl
  | cons hd tl ih =>
      obtain ⟨re, cnt⟩ := hd
      rcases hsr : reSearch re c with _ | ⟨pre, m, caps, rest⟩ <;>
        simp only [trySpokenList, hsr]
      · exact ih
      · rcases hbe : buildSpokenEmail cnt caps with _ | em <;> simp only [hbe]
        · exact ih
        · cases hv : validate_email em with
          | true => simp [hv]
          | false => simp only [hv, Bool.false_eq_true, if_false]; exact ih

theorem trySpokenList_business (l : List (RE × Nat)) (c : CL) (s : Session) :
    (trySpokenList l c s).business_type = s.business_type := by
  induction l with
  | nil => rfl
  | cons hd tl ih =>
      obtain ⟨re, cnt⟩ := hd
      rcases hsr : reSearch re c with _ | ⟨pre, m, caps, rest⟩ <;>
        simp only [trySpokenList, hsr]
      · exact ih
      · rcases hbe : buildSpokenEmail cnt caps with _ | em <;> simp only [hbe]
        · exact ih
        · cases hv : validate_email em with
          | true => simp [hv]
          | false => simp only [hv, Bool.false_eq_true, if_false]; exact ih

theorem trySpokenList_frags (l : List (RE × Nat)) (c : CL) (s : Session) :
    (trySpokenList l c s).email_fragments = s.email_fragments ∨
      (trySpokenList l c s).email_fragments = none := by
  induction l with
  | nil => exact Or.inl rfl
  | cons hd tl ih =>
      obtain ⟨re, cnt⟩ := hd
      rcases hsr : reSearch re c with _ | ⟨pre, m, caps, rest⟩ <;>
        simp only [trySpokenList, hsr]
      · exact ih
      · rcases hbe : buildSpokenEmail cnt caps with _ | em <;> simp only [hbe]
        · exact ih
        · cases hv : validate_email em with
          | true => simp [hv]
          | false => simp only [hv, Bool.false_eq_true, if_false]; exact ih

theorem trySpokenList_email (l : List (RE × Nat)) (c : CL) (s : Session) :
    (trySpokenList l c s).customer_email = s.customer_email ∨
      ∃ e : CL, (trySpokenList l c s).customer_email = some (String.mk e) ∧
        validate_email e = true := by
  induction l with
  | nil => exact Or.inl rfl
  | cons hd tl ih =>
      obtain ⟨re, cnt⟩ := hd
      rcases hsr : reSearch re c with _ | ⟨pre, m, caps, rest⟩ <;>
        simp only [trySpokenList, hsr]
      · exact ih
      · rcases hbe : buildSpokenEmail cnt caps with _ | em <;> simp only [hbe]
        · exact ih
        · cases hv : validate_email em with
          | true =>
              refine Or.inr ⟨em, ?_, hv⟩
              simp [hv]
          | false => simp only [hv, Bool.false_eq_true, if_false]; exact ih

theorem emailDirectStep_name (t : CL) (s : Session) :
    (emailDirectStep t s).customer_name = s.customer_name := by
  rcases h : reSearch directEmailRe t with _ | ⟨a, b, c2, d⟩ <;>
    simp only [emailDirectStep, h]
  cases hv : validate_email (normalize_email b) <;> simp [hv]

theorem emailDirectStep_business (t : CL) (s : Session) :
    (emailDirectStep t s).business_type = s.business_type := by
  rcases h : reSearch directEmailRe t with _ | ⟨a, b, c2, d⟩ <;>
    simp only [emailDirectStep, h]
  cases hv : validate_email (normalize_email b) <;> simp [hv]

theorem emailDirectStep_frags (t : CL) (s : Session) :
    (emailDirectStep t s).email_fragments = s.email_fragments := by
  rcases h : reSearch directEmailRe t with _ | ⟨a, b, c2, d⟩ <;>
    simp only [emailDirectStep, h]
  cases hv : validate_email (normalize_email b) <;> simp [hv]

theorem emailDirectStep_email (t : CL) (s : Session) :
    (emailDirectStep t s).customer_email = s.customer_email ∨
      ∃ e : CL, (emailDirectStep t s).customer_email = some (String.mk e) ∧
        validate_email e = true := by
  rcases h : reSearch directEmailRe t with _ | ⟨a, b, c2, d⟩ <;>
    simp only [emailDirectStep, h]
  · exact Or.inl trivial
  · split
    · next hv => exact Or.inr ⟨normalize_email b, rfl, hv⟩
    · exact Or.inl rfl

theorem emailFragmentsStep_name (t : CL) (s : Session) :
    (emailFragmentsStep t s).customer_name = s.customer_name := by
  unfold emailFragmentsStep
  rw [trySpokenList_name]

theorem emailFragmentsStep_business (t : CL) (s : Session) :
    (emailFragmentsStep t s).business_type = s.business_type := by
  unfold emailFragmentsStep
  rw [trySpokenList_business]

theorem businessStep_name (t : CL) (s : Session) :
    (businessStep t s).customer_name = s.customer_name := by
  unfold businessStep
  split
  · rfl
  · cases businessOf t <;> rfl

theorem businessStep_email (t : CL) (s : Session) :
    (businessStep t s).customer_email = s.customer_email := by
  unfold businessStep
  split
  · rfl
  · cases businessOf t <;> rfl

theorem businessStep_frags (t : CL) (s : Session) :
    (businessStep t s).email_fragments = s.email_fragments := by
  unfold businessStep
  split
  · rfl
  · cases businessOf t <;> rfl

theorem nameStep_business (t : CL) (s : Session) :
    (nameStep t s).business_type = s.business_type := by
  unfold nameStep
  split
  · rfl
  · cases nameOf t <;> rfl

theorem nameStep_email (t : CL) (s : Session) :
    (nameStep t s).customer_email = s.customer_email := by
  unfold nameStep
  split
  · rfl
  · cases nameOf t <;> rfl

theorem nameStep_frags (t : CL) (s : Session) :
    (nameStep t s).email_fragments = s.email_fragments := by
  unfold nameStep
  split
  · rfl
  · cases nameOf t <;> rfl

theorem nameStep_formula (t : CL) (s : Session) :
    (nameStep t s).customer_name =
      if pyTruthy s.customer_name then s.customer_name
      else match nameOf t with
           | some v => some v
           | none => s.customer_name := by
  unfold nameStep
  split
  · simp [*]
  · rcases h : nameOf t with _ | v <;> simp [*]

theorem businessStep_formula (t : CL) (s : Session) :
    (businessStep t s).business_type =
      if pyTruthy s.business_type then s.business_type
      else match businessOf t with
           | some v => some v
           | none => s.business_type := by
  unfold businessStep
  split
  · simp [*]
  · rcases h : businessOf t with _ | v <;> simp [*]

theorem companyStep_name (t : CL) (s : Session) :
    (companyStep t s).customer_name = s.customer_name := by
  unfold companyStep
  cases companyOfList companyPatterns t <;> rfl

theorem companyStep_business (t : CL) (s : Session) :
    (companyStep t s).business_type = s.business_type := by
  unfold companyStep
  cases companyOfList companyPatterns t <;> rfl

theorem companyStep_email (t : CL) (s : Session) :
    (companyStep t s).customer_email = s.customer_email := by
  unfold companyStep
  cases companyOfList companyPatterns t <;> rfl

theorem companyStep_frags (t : CL) (s : Session) :
    (companyStep t s).email_fragments = s.email_fragments := by
  unfold companyStep
  cases companyOfList companyPatterns t <;> rfl

theorem companyFragmentsStep_name (t : CL) (s : Session) :
    (companyFragmentsStep t s).customer_name = s.customer_name := by
  unfold companyFragmentsStep
  dsimp only
  repeat' split
  all_goals rfl

theorem companyFragmentsStep_business (t : CL) (s : Session) :
    (companyFragmentsStep t s).business_type = s.business_type := by
  unfold companyFragmentsStep
  dsimp only
  repeat' split
  all_goals rfl

theorem companyFragmentsStep_email (t : CL) (s : Session) :
    (companyFragmentsStep t s).customer_email = s.customer_email := by
  unfold companyFragmentsStep
  dsimp only
  repeat' split
  all_goals rfl

theorem companyFragmentsStep_frags (t : CL) (s : Session) :
    (companyFragmentsStep t s).email_fragments = s.email_fragments := by
  unfold companyFragmentsStep
  dsimp only
  repeat' split
  all_goals rfl

/-! ## Extractor-level lemmas. -/
theorem extract_name_formula (t : CL) (s : Session) :
    (extract_customer_info t s).customer_name =
      if pyTruthy s.customer_name then s.customer_name
      else match nameOf t with
           | some v => some v
           | none => s.customer_name := by
  unfold extract_customer_info
  rw [companyFragmentsStep_name, companyStep_name, nameStep_formula,
      businessStep_name, emailFragmentsStep_name, emailDirectStep_name]

theorem extract_business_formula (t : CL) (s : Session) :
    (extract_customer_info t s).business_type =
      if pyTruthy s.business_type then s.business_type
      else match businessOf t with
           | some v => some v
           | none => s.business_type := by
  unfold extract_customer_info
  rw [companyFragmentsStep_business, companyStep_business, nameStep_business,
      businessStep_formula, emailFragmentsStep_business, emailDirectStep_business]

theorem emailFragmentsStep_email (t : CL) (s : Session) :
    (emailFragmentsStep t s).customer_email = s.customer_email ∨
      ∃ e : CL, (emailFragmentsStep t s).customer_email = some (String.mk e) ∧
        validate_email e = true := by
  unfold emailFragmentsStep
  exact trySpokenList_email spokenPatterns _ _

theorem extract_email_or_valid (t : CL) (s : Session) :
    (extract_customer_info t s).customer_email = s.customer_email ∨
      ∃ e : CL, (extract_customer_info t s).customer_email = some (String.mk e) ∧
        validate_email e = true := by
  unfold extract_customer_info
  rw [companyFragmentsStep_email, companyStep_email, nameStep_email,
      businessStep_email]
  rcases emailFragmentsStep_email t (emailDirectStep t s) with h | ⟨e, he, hv⟩
  · rcases emailDirectStep_email t s with h2 | ⟨e, he2, hv⟩
    · exact Or.inl (h.trans h2)
    · exact Or.inr ⟨e, h.trans he2, hv⟩
  · exact Or.inr ⟨e, he, hv⟩

theorem lastThree_len_le {α : Type} (l : List α) : (lastThree l).length ≤ 3 := by
  simp [lastThree]
  omega

theorem trySpokenList_frag_bound (l : List (RE × Nat)) (c2 : CL) (s2 : Session)
    (n : Nat) (h : fragLen s2.email_fragments ≤ n) :
    fragLen (trySpokenList l c2 s2).email_fragments ≤ n := by
  rcases trySpokenList_frags l c2 s2 with h2 | h2
  · rw [fragLen, h2]
    exact h
  · rw [fragLen, h2]
    simp

theorem emailFragmentsStep_frag_bound (t : CL) (s : Session) :
    fragLen (emailFragmentsStep t s).email_fragments ≤
      max 3 (fragLen s.email_fragments) := by
  unfold emailFragmentsStep
  apply trySpokenList_frag_bound
  rw [fragLen]
  dsimp only [Option.getD]
  split
  · exact le_max_of_le_left (lastThree_len_le _)
  · exact le_max_of_le_right (le_refl _)

theorem extract_frag_bound (t : CL) (s : Session) :
    fragLen (extract_customer_info t s).email_fragments ≤
      max 3 (fragLen s.email_fragments) := by
  unfold extract_customer_info
  rw [companyFragmentsStep_frags, companyStep_frags, nameStep_frags,
      businessStep_frags]
  have hb := emailFragmentsStep_frag_bound t (emailDirectStep t s)
  rwa [emailDirectStep_frags] at hb

/-- A first-accepted-match-wins field update is idempotent: this is the
shape of the `customer_name` and `business_type` updates. -/
theorem captureOnce_idem (upd old : Option String) :
    (if pyTruthy (if pyTruthy old then old
                  else match upd with | some v => some v | none => old) then
       (if pyTruthy old then old else match upd with | some v => some v | none => old)
     else
       match upd with
       | some v => some v
       | none =>
           if pyTruthy old then old
           else match upd with | some v => some v | none => old) =
      (if pyTruthy old then old
       else match upd with | some v => some v | none => old) := by
  cases hp : pyTruthy old with
  | true => simp [hp]
  | false =>
      cases upd with
      | some v =>
          simp only [hp, Bool.false_eq_true, if_false]
          cases pyTruthy (some v) <;> simp
      | none => simp [hp]

/-- C6 counterexample: the Entity Extractor is not idempotent, and one
fragment accumulator is unbounded.  On the utterance "at gmail dot com"
the first run extracts no e-mail but stores the text as a fragment; the
second run on the very same text joins the two identical fragments and
extracts `customer_email = com@gmail.com` — different field values, so
re-running is not idempotent.  And five runs on the utterance "A" leave
five entries in `company_name_fragments` (the source caps only
`email_fragments` at 3), so that accumulator grows without bound on
repeated identical utterances. -/
theorem C6_counterexample_extractor_not_idempotent :
    (extract_customer_info uttFragment sessNew).customer_email = none
    ∧ (extract_customer_info uttFragment
        (extract_customer_info uttFragment sessNew)).customer_email =
      some "com@gmail.com"
    ∧ ¬((extract_customer_info uttFragment
          (extract_customer_info uttFragment sessNew)).customer_email =
        (extract_customer_info uttFragment sessNew).customer_email)
    ∧ ((extractNTimes uttShort sessNew 5).company_name_fragments.getD []).length = 5 := by
  refine ⟨?_, ?_, ?_, ?_⟩
  · rfl
  · rfl
  · intro h
    rw [show (extract_customer_info uttFragment
        (extract_customer_info uttFragment sessNew)).customer_email =
      some "com@gmail.com" from rfl] at h
    rw [show (extract_customer_info uttFragment sessNew).customer_email = none
      from rfl] at h
    cases h
  · rfl

/-- C6 amended: the extractor is idempotent on `customer_name` and
`business_type` (once computed, a re-run on the same text changes
neither), and the e-mail fragment accumulator stays bounded by 3; but
`customer_email` and `company_name` may change on a second identical
run through fragment self-combination, and `company_name_fragments` is
never truncated (see the counterexample). -/
theorem C6_extractor_partial_idempotence (text : CL) (s : Session) :
    ((extract_customer_info text (extract_customer_info text s)).customer_name =
        (extract_customer_info text s).customer_name)
    ∧ ((extract_customer_info text (extract_customer_info text s)).business_type =
        (extract_customer_info text s).business_type)
    ∧ fragLen (extract_customer_info text s).email_fragments ≤
        max 3 (fragLen s.email_fragments) := by
  refine ⟨?_, ?_, extract_frag_bound text s⟩
  · rw [extract_name_formula text (extract_customer_info text s),
        extract_name_formula text s]
    exact captureOnce_idem (nameOf text) s.customer_name
  · rw [extract_business_formula text (extract_customer_info text s),
        extract_business_formula text s]
    exact captureOnce_idem (businessOf text) s.business_type

/-- C7: e-mail capture always updates and never locks.  The utterance
pair ["my email is a@b.com", "sorry, it's c@d.com"] leaves
`customer_email = c@d.com` (the later valid match overwrites the
earlier one); an utterance whose direct match fails validation after
normalization ("nathan@site.com" normalizes to the two-`@` string
"n@han@site.com") leaves the stored value unchanged; and in general the
extractor either leaves `customer_email` untouched or stores a value
that passes `validate_email`. -/
theorem C7_email_overwrites_and_validates :
    (extract_customer_info uttEmail2
        (extract_customer_info uttEmail1 sessNew)).customer_email = some "c@d.com"
    ∧ (extract_customer_info uttEmailBad
        (extract_customer_info uttEmail1 sessNew)).customer_email = some "a@b.com"
    ∧ ∀ text s, (extract_customer_info text s).customer_email = s.customer_email ∨
        ∃ e : CL, (extract_customer_info text s).customer_email =
            some (String.mk e) ∧ validate_email e = true := by
  refine ⟨?_, ?_, extract_email_or_valid⟩
  · rfl
  · rfl

end Bolt



